import Mathlib

/-!
Verification of the AIWealth expense/budget bookkeeping engine
(`src/database.py`) against its natural-language specification.

The relational store (sqlite tables `expenses`, `budgets`, `savings_goals`,
`notifications`) is modelled as explicit lists of records, and each store
operation of `database.py` is translated into a pure Lean function that
returns either a typed error or the updated store.  Python floats are
modelled as exact rationals (`ℚ`); Python `round` (banker's rounding) is
modelled by `pyRound`/`pyRoundTo`.
-/

attribute [local semireducible] Rat.mul Rat.add Rat.sub Rat.inv

/-- Decidable equality for `Except`, used to evaluate concrete runs of the
store operations. -/
instance {ε α : Type} [DecidableEq ε] [DecidableEq α] : DecidableEq (Except ε α) := fun x y =>
  match x, y with
  | .ok a, .ok b =>
      if h : a = b then .isTrue (by rw [h]) else .isFalse (by intro hc; cases hc; exact h rfl)
  | .ok _, .error _ => .isFalse (by intro hc; cases hc)
  | .error _, .ok _ => .isFalse (by intro hc; cases hc)
  | .error e, .error f =>
      if h : e = f then .isTrue (by rw [h]) else .isFalse (by intro hc; cases hc; exact h rfl)

/-- Integer floor of a rational, mirroring `Rat.floor` (`q.num / q.den`). -/
def ratFloor (q : ℚ) : ℤ := q.num / q.den


/-- Python `round(x)` on an exact rational: round half to even. -/
def pyRound (q : ℚ) : ℤ :=
  if q - ((ratFloor q : ℤ) : ℚ) < 1/2 then ratFloor q
  else if 1/2 < q - ((ratFloor q : ℤ) : ℚ) then ratFloor q + 1
  else if ratFloor q % 2 = 0 then ratFloor q else ratFloor q + 1

/-- Python `round(x, d)` on an exact rational. -/
def pyRoundTo (d : Nat) (q : ℚ) : ℚ :=
  (pyRound (q * (10 : ℚ) ^ d) : ℚ) / (10 : ℚ) ^ d

/-- Does the first character list start the second? -/
def charsStart : List Char → List Char → Bool
  | [], _ => true
  | _ :: _, [] => false
  | a :: as, b :: bs => a = b && charsStart as bs

/-- Does the first character list occur contiguously inside the second? -/
def charsSub (n : List Char) : List Char → Bool
  | [] => n.isEmpty
  | c :: t => charsStart n (c :: t) || charsSub n t

/-- Python's `needle in haystack` on strings: contiguous substring test. -/
def substrIn (needle haystack : String) : Bool :=
  charsSub needle.toList haystack.toList

/-- Python's `not s.strip()`: the string is empty or all whitespace. -/
def isBlank (s : String) : Bool :=
  s.toList.all (fun c => c.isWhitespace)

/-- Python's `s.lower()`.  (Structural restatement of `String.toLower`,
which the kernel cannot evaluate because of its well-founded recursion.) -/
def lowerString (s : String) : String :=
  ⟨s.toList.map Char.toLower⟩

/-! ## Data model (tables of `database.py`, lines 44-124) -/

/-- A row of the `expenses` table. -/
structure Expense where
  id : Nat
  amount : ℚ
  description : String
  category : String
  date : String
deriving DecidableEq

/-- A row of the `budgets` table (`category` is UNIQUE). -/
structure Budget where
  category : String
  limit_amount : ℚ
  spent_amount : ℚ
  period : String
deriving DecidableEq

/-- A row of the `notifications` table (`created_at` is kept implicit:
rows are stored in creation order). -/
structure Notification where
  message : String
  status : String
  type : String
deriving DecidableEq

/-- The persistent store.  `nextExpenseId` models the AUTOINCREMENT
primary-key counter of the `expenses` table: every id ever handed out is
below it. -/
structure DB where
  expenses : List Expense
  budgets : List Budget
  notifications : List Notification
  nextExpenseId : Nat
deriving DecidableEq

/-- Typed errors of the store layer.  `valueError` models Python
`ValueError` (the spec's ValidationError / NotFoundError), `storeError`
models `sqlite3.Error`, `zeroDivisionError` models `ZeroDivisionError`. -/
inductive DBErr where
  | valueError (msg : String)
  | storeError
  | zeroDivisionError
deriving DecidableEq

/-! ## Category classifier (`categorize_expense`, lines 126-157) -/

/-- The static category → keyword table, in Python dict insertion order. -/
def categoriesKeywords : List (String × List String) :=
  [("food", ["groceries", "restaurant", "snack", "food", "lunch", "dinner", "breakfast",
             "cafe", "coffee", "meal", "takeout", "delivery", "dine"]),
   ("housing", ["rent", "mortgage", "utilities", "electricity", "water", "gas bill", "internet",
                "repair", "maintenance", "property", "furniture", "home", "apartment"]),
   ("transport", ["gas", "uber", "bus", "car", "taxi", "train", "subway", "lyft", "fuel",
                  "transit", "transportation", "commute", "vehicle", "maintenance", "parking"]),
   ("entertainment", ["movie", "game", "concert", "theater", "netflix", "subscription", "streaming",
                      "hobby", "leisure", "event", "ticket", "show", "music", "sports"]),
   ("shopping", ["clothes", "electronics", "shoes", "amazon", "online", "mall", "retail", "purchase",
                 "clothing", "accessory", "device", "gadget", "appliance"]),
   ("health", ["doctor", "medical", "medicine", "pharmacy", "healthcare", "dental", "vision",
               "fitness", "gym", "wellness", "hospital", "prescription"])]

/-- Number of keywords of one category that occur in the (already
lower-cased) description. -/
def categoryScore (lowered : String) (keywords : List String) : Nat :=
  (keywords.filter (fun k => substrIn k lowered)).length

/-- `categorize_expense(description)` (lines 126-157): keyword scoring with
a running strict maximum over the categories in table order; zero matches
fall through to `"other"`. -/
def categorize_expense (description : String) : String :=
  if description = "" then "other"
  else
    (categoriesKeywords.foldl
      (fun acc p =>
        if categoryScore (lowerString description) p.2 > acc.1
        then (categoryScore (lowerString description) p.2, p.1) else acc)
      (0, "other")).2

/-! ## `init_db` (lines 44-124) -/

/-- The default budgets created by `init_db`. -/
def default_budgets : List (String × ℚ) :=
  [("food", 500), ("housing", 1500), ("transport", 300), ("entertainment", 200),
   ("shopping", 300), ("health", 300), ("other", 200)]

/-- `init_db()` on a fresh database file: empty tables plus the default
budget rows; the AUTOINCREMENT counter starts at 1. -/
def init_db : DB :=
  { expenses := []
    budgets := default_budgets.map (fun p =>
      { category := p.1, limit_amount := p.2, spent_amount := 0, period := "monthly" })
    notifications := []
    nextExpenseId := 1 }

/-! ## `add_expense` (lines 159-235) -/

/-- Is every listed position of the character list a digit? -/
def digitsAt (cs : List Char) (positions : List Nat) : Bool :=
  positions.all (fun i => (cs.getD i 'x').isDigit)

/-- Shape check for `'%Y-%m-%d %H:%M:%S'`; models the successful case of
`datetime.strptime(date, '%Y-%m-%d %H:%M:%S')` (field-range validation is
abstracted away; no verified claim depends on it). -/
def validTimestamp (s : String) : Bool :=
  let cs := s.toList
  cs.length = 19 && digitsAt cs [0, 1, 2, 3, 5, 6, 8, 9, 11, 12, 14, 15, 17, 18] &&
    cs.getD 4 'x' = '-' && cs.getD 7 'x' = '-' && cs.getD 10 'x' = ' ' &&
    cs.getD 13 'x' = ':' && cs.getD 16 'x' = ':'

/-- Shape check for `'%Y-%m-%d'` (same abstraction as `validTimestamp`). -/
def validDateOnly (s : String) : Bool :=
  let cs := s.toList
  cs.length = 10 && digitsAt cs [0, 1, 2, 3, 5, 6, 8, 9] &&
    cs.getD 4 'x' = '-' && cs.getD 7 'x' = '-'

/-- Date normalization of `add_expense` (lines 173-186): keep a full
timestamp, expand a date-only value to midnight, and fall back to the
current time (`now`) when absent or unparseable. -/
def normalizeDate (date : Option String) (now : String) : String :=
  match date with
  | none => now
  | some d =>
      if validTimestamp d then d
      else if validDateOnly d then d ++ " 00:00:00"
      else now

/-- Category resolution of `add_expense` (lines 169-171): auto-categorize
when the category is absent or blank. -/
def effectiveCategory (category : Option String) (description : String) : String :=
  match category with
  | none => categorize_expense description
  | some c => if isBlank c then categorize_expense description else c

/-- The budget upsert of `add_expense` (lines 202-208):
`INSERT ... VALUES (category, 300, amount) ON CONFLICT(category) DO UPDATE
SET spent_amount = spent_amount + amount`. -/
def upsertSpend (budgets : List Budget) (category : String) (amount : ℚ) : List Budget :=
  if budgets.any (fun b => b.category = category) then
    budgets.map (fun b =>
      if b.category = category then { b with spent_amount := b.spent_amount + amount } else b)
  else
    budgets ++ [{ category := category, limit_amount := 300, spent_amount := amount,
                  period := "monthly" }]

/-- The first budget row of a category (`SELECT ... WHERE category = ?`). -/
def budgetOf (db : DB) (category : String) : Option Budget :=
  db.budgets.find? (fun b => b.category = category)

/-- The `spent_amount` of a category's budget row, when one exists. -/
def spentOf (db : DB) (category : String) : Option ℚ :=
  (budgetOf db category).map Budget.spent_amount

/-- The over-budget notification message of `add_expense` (line 227).
Numeric rendering (`toString`) approximates Python float formatting; the
apostrophe of the original text is dropped.  No verified claim depends on
the message text. -/
def notifMessage (category : String) (limitAmt : ℚ) (percentage : ℤ) : String :=
  "Alert: You have exceeded your " ++ category ++ " budget of $" ++ toString limitAmt ++
    " (currently at " ++ toString percentage ++ "%)!"

/-- `add_expense(amount, description, category, date)` (lines 159-235).
Validation, auto-categorization and date normalization, then one
transaction: insert the expense, upsert the budget, read the budget back,
and insert an over-budget notification when warranted.  On any error the
transaction is rolled back, so an error result carries no new state.
`now` stands for `datetime.now()`.  With a zero `limit_amount` the Python
percentage computation raises `ZeroDivisionError`; that path is the
`zeroDivisionError` branch. -/
def add_expense (amount : ℚ) (description : String) (category : Option String)
    (date : Option String) (now : String) (db : DB) : Except DBErr (Nat × DB) :=
  if amount ≤ 0 then .error (.valueError "Amount must be a positive number")
  else if description = "" then .error (.valueError "Description cannot be empty")
  else
    let cat := effectiveCategory category description
    let d := normalizeDate date now
    let expense_id := db.nextExpenseId
    let exps := db.expenses ++ [{ id := expense_id, amount := amount,
                                   description := description, category := cat, date := d }]
    let buds := upsertSpend db.budgets cat amount
    match buds.find? (fun b => b.category = cat) with
    | none =>
        .ok (expense_id, { expenses := exps, budgets := buds,
                           notifications := db.notifications, nextExpenseId := expense_id + 1 })
    | some b =>
        if b.limit_amount < b.spent_amount then
          if b.limit_amount = 0 then .error .zeroDivisionError
          else
            let percentage := pyRound (b.spent_amount / b.limit_amount * 100)
            let ntype := if 120 < percentage then "alert" else "warning"
            .ok (expense_id,
                 { expenses := exps, budgets := buds,
                   notifications := db.notifications ++
                     [{ message := notifMessage cat b.limit_amount percentage,
                        status := "unread", type := ntype }],
                   nextExpenseId := expense_id + 1 })
        else
          .ok (expense_id, { expenses := exps, budgets := buds,
                             notifications := db.notifications, nextExpenseId := expense_id + 1 })

/-! ## `get_all_expenses` (lines 237-312) -/

/-- Byte-wise lexicographic comparison of character lists: the TEXT
collation SQLite applies to the stored `date` strings (for the
`'%Y-%m-%d %H:%M:%S'` format this is chronological order). -/
def charsLe : List Char → List Char → Bool
  | [], _ => true
  | _ :: _, [] => false
  | a :: as, b :: bs =>
      if a < b then true
      else if a = b then charsLe as bs
      else false

/-- SQLite TEXT comparison of two date strings. -/
def dateLe (a b : String) : Bool := charsLe a.toList b.toList


/-- The `pagination` dict of `get_all_expenses` (lines 303-308). -/
structure Pagination where
  total : Nat
  page : Nat
  limit : Nat
  pages : Nat
deriving DecidableEq

/-- The result dict of `get_all_expenses`.  Each returned row carries the
stored columns; the derived `formatted_date` display field (line 298, a
strftime re-rendering of `date`) is presentation-only and omitted. -/
structure ExpensesPage where
  expenses : List Expense
  pagination : Pagination
deriving DecidableEq

/-- The WHERE clause built in lines 247-258: each filter is applied only
when the argument is truthy (absent or empty-string filters are skipped,
as in Python `if category:`).  SQLite compares TEXT dates
lexicographically, here via the `String` order. -/
def expenseMatches (category date_from date_to : Option String) (e : Expense) : Bool :=
  (match category with
   | none => true
   | some c => if c = "" then true else e.category = c) &&
  (match date_from with
   | none => true
   | some d => if d = "" then true else dateLe d e.date) &&
  (match date_to with
   | none => true
   | some d => if d = "" then true else dateLe e.date d)

/-- `get_all_expenses(limit, offset, category, date_from, date_to)`
(lines 237-312): filter, `ORDER BY date DESC`, `LIMIT limit OFFSET
offset`, plus the total count and the pagination dict.  The pagination
computation divides by the caller-supplied `limit` (`offset // limit` and
`(total + limit - 1) // limit`, lines 305-307), so `limit = 0` raises
`ZeroDivisionError`. -/
def get_all_expenses (limit offset : Nat) (category date_from date_to : Option String)
    (db : DB) : Except DBErr ExpensesPage :=
  let matching := db.expenses.filter (expenseMatches category date_from date_to)
  let sorted := matching.insertionSort (fun a b => dateLe b.date a.date = true)
  let rows := (sorted.drop offset).take limit
  if limit = 0 then .error .zeroDivisionError
  else
    .ok { expenses := rows
          pagination := { total := matching.length
                          page := offset / limit + 1
                          limit := limit
                          pages := (matching.length + limit - 1) / limit } }

/-! ## `get_budget_overview` (lines 687-754) -/

/-- The SQL percentage of a budget row (lines 700-703):
`CASE WHEN limit_amount > 0 THEN spent_amount / limit_amount * 100 ELSE 0
END`. -/
def pctOf (b : Budget) : ℚ :=
  if 0 < b.limit_amount then b.spent_amount / b.limit_amount * 100 else 0

/-- One entry of the overview's `categories` list (lines 731-738). -/
structure OverviewEntry where
  category : String
  limit : ℚ
  spent : ℚ
  remaining : ℚ
  percentage : ℚ
  status : String
deriving DecidableEq

/-- The overview's `summary` dict (lines 741-746). -/
structure OverviewSummary where
  total_limit : ℚ
  total_spent : ℚ
  total_remaining : ℚ
  overall_percentage : ℚ
deriving DecidableEq

/-- The result of `get_budget_overview`. -/
structure Overview where
  categories : List OverviewEntry
  summary : OverviewSummary
deriving DecidableEq

/-- The per-row formatting of the overview loop (lines 712-738): display
values rounded to 2 decimals (percentage to 1), status from the unrounded
percentage. -/
def overviewEntry (b : Budget) : OverviewEntry :=
  { category := b.category
    limit := pyRoundTo 2 b.limit_amount
    spent := pyRoundTo 2 b.spent_amount
    remaining := pyRoundTo 2 (b.limit_amount - b.spent_amount)
    percentage := pyRoundTo 1 (pctOf b)
    status :=
      if 100 ≤ pctOf b then "exceeded"
      else if 80 ≤ pctOf b then "warning"
      else "normal" }

/-- `get_budget_overview()` (lines 687-754): rows ordered by percentage
descending (`ORDER BY percentage DESC`), each formatted by
`overviewEntry`; totals accumulated over all rows unrounded and rounded
only for the summary. -/
def get_budget_overview (db : DB) : Overview :=
  let sorted := db.budgets.insertionSort (fun a b => pctOf b ≤ pctOf a)
  let total_limit := (db.budgets.map Budget.limit_amount).sum
  let total_spent := (db.budgets.map Budget.spent_amount).sum
  { categories := sorted.map overviewEntry
    summary := { total_limit := pyRoundTo 2 total_limit
                 total_spent := pyRoundTo 2 total_spent
                 total_remaining := pyRoundTo 2 (total_limit - total_spent)
                 overall_percentage :=
                   pyRoundTo 1
                     (if 0 < total_limit then total_spent / total_limit * 100 else 0) } }

/-! ## `delete_expense` (lines 314-349) -/

/-- `delete_expense(expense_id)` (lines 314-349): look the expense up
(`ValueError` and rollback when absent), delete its row, and decrement the
matching budget's `spent_amount`, floored at zero
(`SET spent_amount = MAX(0, spent_amount - amount)`). -/
def delete_expense (expense_id : Nat) (db : DB) : Except DBErr DB :=
  match db.expenses.find? (fun e => e.id = expense_id) with
  | none => .error (.valueError ("Expense with ID " ++ toString expense_id ++ " not found"))
  | some e =>
      .ok { db with
              expenses := db.expenses.filter (fun x => x.id ≠ expense_id)
              budgets := db.budgets.map (fun b =>
                if b.category = e.category then
                  { b with spent_amount := max 0 (b.spent_amount - e.amount) }
                else b) }

/-! ## Transactional step model (for `db_connection`, lines 27-42)

`db_connection` rolls the open transaction back on any `sqlite3.Error`,
`delete_expense` rolls back explicitly before raising its not-found
`ValueError`, and on every other exception the connection is closed with
the transaction uncommitted — so a failure at any step of a multi-step
operation must leave the committed state untouched.  To verify that, the
two mutating operations are re-stated with an explicit fault-injection
parameter naming the SQL step at which the store fails; the returned pair
is (operation result, committed state after the call). -/

/-- The SQL steps of the `add_expense` transaction (lines 192-229). -/
inductive AddStep where
  | insertExpense
  | upsertBudget
  | readBudget
  | insertNotif
  | commit
deriving DecidableEq

/-- The SQL steps of the `delete_expense` transaction (lines 319-344). -/
inductive DelStep where
  | selectExpense
  | deleteRow
  | updateBudget
  | commit
deriving DecidableEq

/-- `add_expense` with an injected store fault: the same validation,
normalization and per-step state as `add_expense`, but the store fails
with `sqlite3.Error` at step `fault`; uncommitted changes are only
published at the commit step. -/
def add_expense_tx (fault : Option AddStep) (amount : ℚ) (description : String)
    (category : Option String) (date : Option String) (now : String) (db : DB) :
    Except DBErr Nat × DB :=
  if amount ≤ 0 then (.error (.valueError "Amount must be a positive number"), db)
  else if description = "" then (.error (.valueError "Description cannot be empty"), db)
  else
    let cat := effectiveCategory category description
    let d := normalizeDate date now
    let expense_id := db.nextExpenseId
    if fault = some .insertExpense then (.error .storeError, db)
    else
      let exps := db.expenses ++ [{ id := expense_id, amount := amount,
                                     description := description, category := cat, date := d }]
      if fault = some .upsertBudget then (.error .storeError, db)
      else
        let buds := upsertSpend db.budgets cat amount
        if fault = some .readBudget then (.error .storeError, db)
        else
          match buds.find? (fun b => b.category = cat) with
          | none =>
              if fault = some .commit then (.error .storeError, db)
              else (.ok expense_id,
                    { expenses := exps, budgets := buds,
                      notifications := db.notifications, nextExpenseId := expense_id + 1 })
          | some b =>
              if b.limit_amount < b.spent_amount then
                if b.limit_amount = 0 then (.error .zeroDivisionError, db)
                else
                  let percentage := pyRound (b.spent_amount / b.limit_amount * 100)
                  let ntype := if 120 < percentage then "alert" else "warning"
                  if fault = some .insertNotif then (.error .storeError, db)
                  else
                    let notifs := db.notifications ++
                      [{ message := notifMessage cat b.limit_amount percentage,
                         status := "unread", type := ntype }]
                    if fault = some .commit then (.error .storeError, db)
                    else (.ok expense_id,
                          { expenses := exps, budgets := buds,
                            notifications := notifs, nextExpenseId := expense_id + 1 })
              else
                if fault = some .commit then (.error .storeError, db)
                else (.ok expense_id,
                      { expenses := exps, budgets := buds,
                        notifications := db.notifications, nextExpenseId := expense_id + 1 })

/-- `delete_expense` with an injected store fault, in the same style as
`add_expense_tx`.  The not-found branch rolls back explicitly (lines
328-330). -/
def delete_expense_tx (fault : Option DelStep) (expense_id : Nat) (db : DB) :
    Except DBErr Unit × DB :=
  if fault = some .selectExpense then (.error .storeError, db)
  else
    match db.expenses.find? (fun e => e.id = expense_id) with
    | none =>
        (.error (.valueError ("Expense with ID " ++ toString expense_id ++ " not found")), db)
    | some e =>
        if fault = some .deleteRow then (.error .storeError, db)
        else
          let exps := db.expenses.filter (fun x => x.id ≠ expense_id)
          if fault = some .updateBudget then (.error .storeError, db)
          else
            let buds := db.budgets.map (fun b =>
              if b.category = e.category then
                { b with spent_amount := max 0 (b.spent_amount - e.amount) }
              else b)
            if fault = some .commit then (.error .storeError, db)
            else (.ok (), { db with expenses := exps, budgets := buds })

/-! ## `set_budget` (lines 476-501) -/

/-- `set_budget(category, limit_amount)` (lines 476-501).  Note the Python
guard `if not limit_amount or float(limit_amount) < 0`: a zero limit is
falsy and is rejected together with the negative ones. -/
def set_budget (category : String) (limit_amount : ℚ) (db : DB) : Except DBErr DB :=
  if isBlank category then .error (.valueError "Category cannot be empty")
  else if limit_amount = 0 ∨ limit_amount < 0 then
    .error (.valueError "Budget limit must be a non-negative number")
  else
    .ok { db with
            budgets :=
              if db.budgets.any (fun b => b.category = category) then
                db.budgets.map (fun b =>
                  if b.category = category then { b with limit_amount := limit_amount } else b)
              else
                db.budgets ++ [{ category := category, limit_amount := limit_amount,
                                 spent_amount := 0, period := "monthly" }] }


/-! ## Reachable states and the spent-amount bookkeeping invariant -/

/-- Sum of the amounts of the expenses of one category in a list. -/
def catSumL (l : List Expense) (c : String) : ℚ :=
  ((l.filter (fun e => e.category = c)).map Expense.amount).sum

/-- Sum of the amounts of the currently stored (undeleted) expenses of one
category. -/
def catSum (db : DB) (c : String) : ℚ :=
  catSumL db.expenses c

/-- The bookkeeping invariant of spec section 4.2: every budget row's
`spent_amount` equals the sum of the undeleted expenses of its category.
(In every reachable state no expense predates its category's budget row,
because `add_expense` creates the row on first use, so "since the budget's
creation" coincides with "currently stored".) -/
def SpentInvariant (db : DB) : Prop :=
  ∀ b ∈ db.budgets, b.spent_amount = catSum db b.category

/-- States reachable from initialisation by the core mutating operations
(`add_expense`, `delete_expense`, `set_budget`); failed calls raise and
leave the store unchanged, so only successful steps appear. -/
inductive Reachable : DB → Prop where
  | init : Reachable init_db
  | add {db db' : DB} {amount : ℚ} {description : String} {category date : Option String}
      {now : String} {i : Nat} :
      Reachable db → add_expense amount description category date now db = .ok (i, db') →
      Reachable db'
  | del {db db' : DB} {i : Nat} :
      Reachable db → delete_expense i db = .ok db' → Reachable db'
  | set {db db' : DB} {category : String} {l : ℚ} :
      Reachable db → set_budget category l db = .ok db' → Reachable db'

/-- The structural facts that hold in every reachable store and make the
spent-amount invariant inductive: amounts are positive (schema CHECK),
expense ids are unique and below the AUTOINCREMENT counter (PRIMARY KEY),
every stored expense's category has a budget row, and the invariant
itself. -/
structure StoreWF (db : DB) : Prop where
  amounts_pos : ∀ e ∈ db.expenses, 0 < e.amount
  ids_lt : ∀ e ∈ db.expenses, e.id < db.nextExpenseId
  ids_nodup : (db.expenses.map Expense.id).Nodup
  budget_exists : ∀ e ∈ db.expenses, ∃ b ∈ db.budgets, b.category = e.category
  inv : SpentInvariant db

/-! ## Definitions taken from the specification's wording

The following definitions restate behavior in the spec's vocabulary; they
are compared against the source-derived functions above. -/

/-- The highest keyword-match count over all categories (spec 4.1). -/
def maxScore (description : String) : Nat :=
  ((categoriesKeywords.map (fun p => categoryScore (lowerString description) p.2)).foldr max 0)

/-- The first category of the table attaining the highest keyword-match
count, `"other"` when every category scores zero: the tie-break the code
actually implements. -/
def firstBestCategory (description : String) : String :=
  if maxScore description = 0 then "other"
  else
    ((categoriesKeywords.find?
        (fun p => categoryScore (lowerString description) p.2 = maxScore description)).map
      Prod.fst).getD "other"

/-- The notifications one `add_expense` call must append, as a function of
the budget row it reads back: none while `spent_amount ≤ limit_amount`,
otherwise one unread notification whose type is `"alert"` exactly when the
integer-rounded percentage exceeds 120. -/
def notifFor (cat : String) : Option Budget → List Notification
  | none => []
  | some b =>
      if b.limit_amount < b.spent_amount then
        [{ message := notifMessage cat b.limit_amount
             (pyRound (b.spent_amount / b.limit_amount * 100)),
           status := "unread",
           type := if 120 < pyRound (b.spent_amount / b.limit_amount * 100)
                   then "alert" else "warning" }]
      else []

/-! ## Concrete scenario states -/

/-- A fixed stand-in for `datetime.now()` in scenario runs. -/
def nowStamp : String := "2025-01-01 12:00:00"

/-- State after `set_budget("travel", 250)` on a fresh store. -/
def travelDB1 : DB := ((set_budget "travel" 250 init_db).toOption).getD init_db

/-- State after the subsequent `add_expense(300, "flight to NYC", "travel")`. -/
def travelDB2 : DB :=
  match add_expense 300 "flight to NYC" (some "travel") none nowStamp travelDB1 with
  | .ok p => p.2
  | .error _ => travelDB1

/-- State after `set_budget("misc", 100)` on a fresh store. -/
def miscDB1 : DB := ((set_budget "misc" 100 init_db).toOption).getD init_db

/-- State after the subsequent `add_expense(120.4, "stuff", "misc")`. -/
def miscDB2 : DB :=
  match add_expense (1204/10) "stuff" (some "misc") none nowStamp miscDB1 with
  | .ok p => p.2
  | .error _ => miscDB1

/-- State after `set_budget("goods", 100)` on a fresh store. -/
def goodsDB1 : DB := ((set_budget "goods" 100 init_db).toOption).getD init_db

/-- State after the subsequent `add_expense(101, "goods purchase", "goods")`. -/
def goodsDB2 : DB :=
  match add_expense 101 "goods purchase" (some "goods") none nowStamp goodsDB1 with
  | .ok p => p.2
  | .error _ => goodsDB1

/-- State after `add_expense(121, "goods purchase", "goods")` from
`goodsDB1` instead. -/
def goodsAlertDB2 : DB :=
  match add_expense 121 "goods purchase" (some "goods") none nowStamp goodsDB1 with
  | .ok p => p.2
  | .error _ => goodsDB1

/-- A store holding 25 well-dated expenses, for the pagination witness. -/
def db25 : DB :=
  { expenses := (List.range 25).map (fun k =>
      { id := k + 1, amount := 5, description := "item", category := "other",
        date := "2024-01-01 00:00:" ++ toString (10 + k) })
    budgets := []
    notifications := []
    nextExpenseId := 26 }

/-- The first page (limit 10, offset 0) of `db25`. -/
def page25 : ExpensesPage :=
  ((get_all_expenses 10 0 none none none db25).toOption).getD
    { expenses := [], pagination := { total := 0, page := 0, limit := 0, pages := 0 } }

/-- A store whose single budget row has spent 1 of limit 3: its exact
percentage 100/3 is not representable in one decimal digit. -/
def thirdDB : DB :=
  { expenses := []
    budgets := [{ category := "food", limit_amount := 3, spent_amount := 1,
                  period := "monthly" }]
    notifications := []
    nextExpenseId := 1 }

/-! ## Helper lemmas -/

theorem ratFloor_eq_floor (q : ℚ) : ratFloor q = ⌊q⌋ := Rat.floor_def.symm

theorem charsLe_total : ∀ (a b : List Char), charsLe a b = true ∨ charsLe b a = true
  | [], _ => Or.inl rfl
  | _ :: _, [] => Or.inr rfl
  | a :: as, b :: bs => by
      unfold charsLe
      rcases lt_trichotomy a b with h | h | h
      · left
        rw [if_pos h]
      · subst h
        simpa using charsLe_total as bs
      · right
        rw [if_pos h]

theorem charsLe_trans : ∀ (a b c : List Char),
    charsLe a b = true → charsLe b c = true → charsLe a c = true
  | [], _, _, _, _ => rfl
  | _ :: _, [], _, h, _ => by simp [charsLe] at h
  | _ :: _, _ :: _, [], _, h => by simp [charsLe] at h
  | a :: as, b :: bs, c :: cs, h1, h2 => by
      unfold charsLe at h1 h2 ⊢
      by_cases hab : a < b
      · by_cases hbc : b < c
        · rw [if_pos (lt_trans hab hbc)]
        · rw [if_neg hbc] at h2
          by_cases hbc2 : b = c
          · subst hbc2
            rw [if_pos hab]
          · rw [if_neg hbc2] at h2
            exact absurd h2 (by simp)
      · rw [if_neg hab] at h1
        by_cases hab2 : a = b
        · subst hab2
          rw [if_pos rfl] at h1
          by_cases hbc : a < c
          · rw [if_pos hbc]
          · rw [if_neg hbc] at h2 ⊢
            by_cases hbc2 : a = c
            · rw [if_pos hbc2] at h2 ⊢
              exact charsLe_trans as bs cs h1 h2
            · rw [if_neg hbc2] at h2
              exact absurd h2 (by simp)
        · rw [if_neg hab2] at h1
          exact absurd h1 (by simp)


theorem pyRound_bounds (q : ℚ) : ⌊q⌋ ≤ pyRound q ∧ pyRound q ≤ ⌊q⌋ + 1 := by
  unfold pyRound
  rw [ratFloor_eq_floor]
  constructor <;> split_ifs <;> omega

theorem pyRound_le_pyRound {q r : ℚ} (h : q ≤ r) : pyRound q ≤ pyRound r := by
  have hf : ⌊q⌋ ≤ ⌊r⌋ := Int.floor_le_floor h
  rcases lt_or_eq_of_le hf with hlt | heq
  · have h1 := pyRound_bounds q
    have h2 := pyRound_bounds r
    omega
  · have hab : q - ((⌊q⌋ : ℤ) : ℚ) ≤ r - ((⌊q⌋ : ℤ) : ℚ) := by linarith
    unfold pyRound
    rw [ratFloor_eq_floor, ratFloor_eq_floor, ← heq]
    split_ifs <;> first | omega | linarith

theorem pyRoundTo_mono (d : Nat) {q r : ℚ} (h : q ≤ r) : pyRoundTo d q ≤ pyRoundTo d r := by
  have hp : (0 : ℚ) < (10 : ℚ) ^ d := by positivity
  have h1 : q * (10 : ℚ) ^ d ≤ r * (10 : ℚ) ^ d := by
    exact mul_le_mul_of_nonneg_right h (le_of_lt hp)
  have h2 := pyRound_le_pyRound h1
  unfold pyRoundTo
  have h3 : ((pyRound (q * (10 : ℚ) ^ d) : ℤ) : ℚ) ≤ ((pyRound (r * (10 : ℚ) ^ d) : ℤ) : ℚ) := by
    exact_mod_cast h2
  exact div_le_div_of_nonneg_right h3 hp.le

theorem find_max_isSome {α : Type} (f : α → Nat) :
    ∀ (l : List α), (l.map f).foldr max 0 ≠ 0 →
      ∃ x, l.find? (fun p => f p = (l.map f).foldr max 0) = some x := by
  intro l
  induction l with
  | nil => intro h; simp at h
  | cons p t ih =>
    intro h
    simp only [List.map_cons, List.foldr_cons] at h ⊢
    by_cases hp : f p = max (f p) ((t.map f).foldr max 0)
    · exact ⟨p, by rw [List.find?_cons_of_pos _ (by simpa using hp)]⟩
    · have hM : max (f p) ((t.map f).foldr max 0) = (t.map f).foldr max 0 := by omega
      rw [List.find?_cons_of_neg _ (by simpa using hp)]
      simp only [hM]
      exact ih (by omega)

theorem foldl_best_spec {α : Type} (f : α → Nat) (name : α → String) :
    ∀ (l : List α) (m0 : Nat) (b0 : String),
      l.foldl (fun acc p => if f p > acc.1 then (f p, name p) else acc) (m0, b0)
      = (max m0 ((l.map f).foldr max 0),
         if m0 < (l.map f).foldr max 0
         then ((l.find? (fun p => f p = (l.map f).foldr max 0)).map name).getD b0
         else b0) := by
  intro l
  induction l with
  | nil => intro m0 b0; simp
  | cons p t ih =>
    intro m0 b0
    simp only [List.foldl_cons, List.map_cons, List.foldr_cons]
    by_cases hs : f p > m0
    · rw [if_pos hs, ih (f p) (name p)]
      by_cases h2 : f p < (t.map f).foldr max 0
      · have hM : max (f p) ((t.map f).foldr max 0) = (t.map f).foldr max 0 := by omega
        obtain ⟨x, hx⟩ := find_max_isSome f t (by omega)
        simp only [hM]
        rw [if_pos h2, if_pos (by omega),
          List.find?_cons_of_neg _ (by simp only [decide_eq_true_eq]; omega), hx]
        simp
        omega
      · have hM : max (f p) ((t.map f).foldr max 0) = f p := by omega
        simp only [hM]
        rw [if_neg h2, if_pos (by omega), List.find?_cons_of_pos _ (by simp)]
        simp only [Prod.mk.injEq]
        refine ⟨by omega, by simp⟩
    · rw [if_neg hs, ih m0 b0]
      by_cases h2 : m0 < (t.map f).foldr max 0
      · have hM : max (f p) ((t.map f).foldr max 0) = (t.map f).foldr max 0 := by omega
        simp only [hM]
        rw [if_pos h2, if_pos h2,
          List.find?_cons_of_neg _ (by simp only [decide_eq_true_eq]; omega)]
      · rw [if_neg h2, if_neg (show ¬ m0 < max (f p) ((t.map f).foldr max 0) by omega)]
        simp only [Prod.mk.injEq]
        exact ⟨by omega, trivial⟩

/-! ## Claim C2 — classifier contract -/

/-- C2, counterexample: on `"rent gas"` the categories `"housing"` (keyword
`"rent"`) and `"transport"` (keyword `"gas"`) tie for the highest score 1,
yet `categorize_expense` returns `"housing"`, not the `"other"` the claim
demands for ties. -/
theorem C2_classifier_counterexample :
    maxScore "rent gas" = 1 ∧
    categoryScore (lowerString "rent gas") ((categoriesKeywords.getD 1 ("", [])).2) = 1 ∧
    (categoriesKeywords.getD 1 ("", [])).1 = "housing" ∧
    categoryScore (lowerString "rent gas") ((categoriesKeywords.getD 2 ("", [])).2) = 1 ∧
    (categoriesKeywords.getD 2 ("", [])).1 = "transport" ∧
    categorize_expense "rent gas" = "housing" := by decide

/-- C2, amended: `classify` returns the category whose keyword set has the
strictly highest count of keywords occurring as substrings of the
lower-cased description; when several categories tie for the highest
count, the earliest of them in the fixed table order wins (not `"other"`);
when every category scores zero it returns `"other"`; in particular
`classify("") = "other"` and `classify("bought lunch at cafe") = "food"`. -/
theorem C2_classifier_amended :
    (∀ d : String, categorize_expense d = firstBestCategory d) ∧
    categorize_expense "" = "other" ∧
    categorize_expense "bought lunch at cafe" = "food" := by
  refine ⟨fun d => ?_, by decide, by decide⟩
  by_cases hd : d = ""
  · subst hd; decide
  · unfold categorize_expense firstBestCategory maxScore
    rw [if_neg hd,
      foldl_best_spec (fun p => categoryScore (lowerString d) p.2) Prod.fst
        categoriesKeywords 0 "other"]
    by_cases hM :
        ((categoriesKeywords.map (fun p => categoryScore (lowerString d) p.2)).foldr max 0) = 0
    · rw [if_pos hM]
      simp [hM]
    · rw [if_neg hM]
      have hpos :
          0 < (categoriesKeywords.map (fun p => categoryScore (lowerString d) p.2)).foldr max 0 := by
        omega
      simp [hpos]

/-! ## Claim C4 — `set_budget` validation -/

/-- C4 (code bug): `set_budget("travel", 0)` is rejected with the
"must be a non-negative number" `ValueError` even though 0 is
non-negative, because the Python guard `if not limit_amount or
float(limit_amount) < 0` treats the falsy value `0` as missing.  The
spec's "fails iff category blank or limitAmount < 0" is the evident
intent (it matches the code's own error message); the code deviates at
exactly `limit_amount = 0`. -/
theorem C4_set_budget_zero_rejected :
    set_budget "travel" 0 init_db =
      .error (.valueError "Budget limit must be a non-negative number") := by decide

/-! ## Claim C10 — `get_all_expenses` with limit 0 -/

/-- C10: for every store, offset and filter set, `listExpenses` with
`limit = 0` fails with the division-by-zero error: the pagination
computation divides by the caller-supplied limit with no guard. -/
theorem C10_limit_zero_division (offset : Nat) (category date_from date_to : Option String)
    (db : DB) :
    get_all_expenses 0 offset category date_from date_to db = .error .zeroDivisionError := by
  unfold get_all_expenses
  simp


/-! ## Claim C1 — travel scenario -/

/-- C1, counterexample: in the claimed scenario the single created
notification has type `"warning"`, not `"alert"` — spent 300 of limit 250
is exactly 120% and the code's `percentage > 120` test is strict. -/
theorem C1_scenario_counterexample :
    set_budget "travel" 250 init_db = .ok travelDB1 ∧
    add_expense 300 "flight to NYC" (some "travel") none nowStamp travelDB1 =
      .ok (1, travelDB2) ∧
    travelDB2.notifications.map Notification.type = ["warning"] := by decide

/-- C1, amended: after `setBudget("travel", 250)` then
`recordExpense(300, "flight to NYC", "travel")` on a store with no prior
travel spending, the budget overview reports for `"travel"` a limit of
250, spent 300, percentage 120.0 and status `"exceeded"`, and exactly one
unread notification — of type `"warning"`, since the rounded percentage
120 is not strictly above 120 — is created by that call. -/
theorem C1_scenario_amended :
    set_budget "travel" 250 init_db = .ok travelDB1 ∧
    add_expense 300 "flight to NYC" (some "travel") none nowStamp travelDB1 =
      .ok (1, travelDB2) ∧
    (get_budget_overview travelDB2).categories.find? (fun e => e.category = "travel") =
      some { category := "travel", limit := 250, spent := 300, remaining := -50,
             percentage := 120, status := "exceeded" } ∧
    travelDB2.notifications.map (fun n => (n.status, n.type)) = [("unread", "warning")] := by
  decide

/-! ## Claim C3 — threshold notifications -/


/-- C3, counterexample: with limit 100 and spending 120.4, the exact
percentage 120.4 is strictly greater than 120, yet the created
notification has type `"warning"`: the code compares the percentage only
after `round()` (120.4 rounds to 120, and 120 > 120 fails). -/
theorem C3_threshold_counterexample :
    add_expense (1204/10) "stuff" (some "misc") none nowStamp miscDB1 = .ok (1, miscDB2) ∧
    spentOf miscDB2 "misc" = some (1204/10) ∧
    (120 : ℚ) < (1204/10) / 100 * 100 ∧
    miscDB2.notifications.map (fun n => (n.status, n.type)) = [("unread", "warning")] := by
  decide

/-- Inversion of a successful `add_expense`: validation passed and the new
state is the old one with the expense appended, the budget upserted and
the id counter advanced. -/
theorem add_expense_ok {amount : ℚ} {description : String} {category date : Option String}
    {now : String} {db : DB} {i : Nat} {db' : DB}
    (h : add_expense amount description category date now db = .ok (i, db')) :
    0 < amount ∧ description ≠ "" ∧ i = db.nextExpenseId ∧
    db'.expenses = db.expenses ++
      [{ id := db.nextExpenseId, amount := amount, description := description,
         category := effectiveCategory category description,
         date := normalizeDate date now }] ∧
    db'.budgets = upsertSpend db.budgets (effectiveCategory category description) amount ∧
    db'.nextExpenseId = db.nextExpenseId + 1 := by
  unfold add_expense at h
  split at h
  · simp at h
  · rename_i hamt
    split at h
    · simp at h
    · rename_i hdesc
      dsimp only at h
      split at h
      · simp only [Except.ok.injEq, Prod.mk.injEq] at h
        obtain ⟨hi, hdb⟩ := h
        subst hdb
        exact ⟨not_le.mp hamt, hdesc, hi.symm, rfl, rfl, rfl⟩
      · split at h
        · split at h
          · simp at h
          · simp only [Except.ok.injEq, Prod.mk.injEq] at h
            obtain ⟨hi, hdb⟩ := h
            subst hdb
            exact ⟨not_le.mp hamt, hdesc, hi.symm, rfl, rfl, rfl⟩
        · simp only [Except.ok.injEq, Prod.mk.injEq] at h
          obtain ⟨hi, hdb⟩ := h
          subst hdb
          exact ⟨not_le.mp hamt, hdesc, hi.symm, rfl, rfl, rfl⟩

/-- C3, amended: a successful `recordExpense` appends a notification
exactly when the category's `spent_amount` after the insert strictly
exceeds its `limit_amount`, and the notification is unread with type
`"alert"` when the integer-rounded (half-to-even) percentage is strictly
greater than 120 and `"warning"` otherwise; so with limit 100 a single
expense of 101 yields exactly one unread `"warning"` notification and a
single expense of 121 yields type `"alert"`. -/
theorem C3_threshold_amended (amount : ℚ) (description : String)
    (category date : Option String) (now : String) (db : DB) (i : Nat) (db' : DB)
    (h : add_expense amount description category date now db = .ok (i, db')) :
    db'.notifications =
      db.notifications ++
        notifFor (effectiveCategory category description)
          (budgetOf db' (effectiveCategory category description)) := by
  unfold add_expense at h
  split at h
  · simp at h
  · split at h
    · simp at h
    · dsimp only at h
      split at h
      · rename_i heq
        simp only [Except.ok.injEq, Prod.mk.injEq] at h
        obtain ⟨hi, hdb⟩ := h
        subst hdb
        simp [budgetOf, notifFor, heq]
      · rename_i b heq
        split at h
        · rename_i hlt
          split at h
          · simp at h
          · simp only [Except.ok.injEq, Prod.mk.injEq] at h
            obtain ⟨hi, hdb⟩ := h
            subst hdb
            simp [budgetOf, notifFor, heq, hlt]
        · rename_i hlt
          simp only [Except.ok.injEq, Prod.mk.injEq] at h
          obtain ⟨hi, hdb⟩ := h
          subst hdb
          simp [budgetOf, notifFor, heq, hlt]


/-- Witness for C3: with limit 100, a single expense of 101 creates
exactly the notification `notifFor` prescribes — one unread `"warning"` —
and a single expense of 121 creates one unread `"alert"`. -/
theorem C3_threshold_amended_witness :
    add_expense 101 "goods purchase" (some "goods") none nowStamp goodsDB1 =
      .ok (1, goodsDB2) ∧
    goodsDB2.notifications =
      goodsDB1.notifications ++
        notifFor (effectiveCategory (some "goods") "goods purchase")
          (budgetOf goodsDB2 (effectiveCategory (some "goods") "goods purchase")) ∧
    goodsDB2.notifications.map (fun n => (n.status, n.type)) = [("unread", "warning")] ∧
    goodsAlertDB2.notifications.map (fun n => (n.status, n.type)) = [("unread", "alert")] :=
  ⟨by decide,
   C3_threshold_amended 101 "goods purchase" (some "goods") none nowStamp goodsDB1 1 goodsDB2
     (by decide),
   by decide, by decide⟩

/-! ## Lemmas about category sums and upserts -/

theorem catSumL_cons (x : Expense) (t : List Expense) (c : String) :
    catSumL (x :: t) c = (if x.category = c then x.amount else 0) + catSumL t c := by
  unfold catSumL
  by_cases h : x.category = c <;> simp [List.filter_cons, h]

theorem catSumL_append (l : List Expense) (e : Expense) (c : String) :
    catSumL (l ++ [e]) c = catSumL l c + (if e.category = c then e.amount else 0) := by
  unfold catSumL
  rw [List.filter_append]
  by_cases h : e.category = c <;> simp [List.filter_cons, h]

theorem catSumL_eq_zero {l : List Expense} {c : String}
    (h : ∀ e ∈ l, e.category ≠ c) : catSumL l c = 0 := by
  unfold catSumL
  have : l.filter (fun e => e.category = c) = [] := by
    rw [List.filter_eq_nil_iff]
    intro e he
    simpa using h e he
  rw [this]
  simp

theorem catSumL_nonneg {l : List Expense} {c : String}
    (h : ∀ e ∈ l, 0 < e.amount) : 0 ≤ catSumL l c := by
  unfold catSumL
  refine List.sum_nonneg ?_
  intro q hq
  obtain ⟨e, he, rfl⟩ := List.mem_map.mp hq
  exact (h e (List.mem_filter.mp he).1).le

theorem catSumL_delete (i : Nat) :
    ∀ (l : List Expense), (l.map Expense.id).Nodup →
      ∀ e, l.find? (fun x => x.id = i) = some e →
        ∀ c, catSumL (l.filter (fun x => x.id ≠ i)) c
          = catSumL l c - (if e.category = c then e.amount else 0) := by
  intro l
  induction l with
  | nil => intro _ e he; simp at he
  | cons x t ih =>
    intro hnd e he c
    have hnd' : (∀ y ∈ t, ¬ y.id = x.id) ∧ (t.map Expense.id).Nodup := by
      simpa using hnd
    by_cases hx : x.id = i
    · rw [List.find?_cons_of_pos _ (by simpa using hx)] at he
      obtain rfl : x = e := by simpa using he
      have ht : t.filter (fun y => y.id ≠ i) = t := by
        rw [List.filter_eq_self]
        intro a ha
        have hne : a.id ≠ i := fun hai => hnd'.1 a ha (hai.trans hx.symm)
        simpa using hne
      rw [List.filter_cons_of_neg (by simpa using hx), ht, catSumL_cons]
      ring
    · rw [List.find?_cons_of_neg _ (by simpa using hx)] at he
      rw [List.filter_cons_of_pos (by simpa using hx), catSumL_cons, catSumL_cons,
        ih hnd'.2 e he c]
      ring

theorem upsertSpend_preserves (budgets : List Budget) (c : String) (a : ℚ) :
    ∀ b ∈ budgets, ∃ b' ∈ upsertSpend budgets c a, b'.category = b.category := by
  intro b hb
  unfold upsertSpend
  by_cases hany : budgets.any (fun x => x.category = c)
  · rw [if_pos hany]
    refine ⟨if b.category = c then { b with spent_amount := b.spent_amount + a } else b,
      List.mem_map_of_mem _ hb, ?_⟩
    split <;> rfl
  · rw [if_neg hany]
    exact ⟨b, List.mem_append_left _ hb, rfl⟩

theorem upsertSpend_has (budgets : List Budget) (c : String) (a : ℚ) :
    ∃ b' ∈ upsertSpend budgets c a, b'.category = c := by
  unfold upsertSpend
  by_cases hany : budgets.any (fun x => x.category = c)
  · rw [if_pos hany]
    obtain ⟨b, hb, hbc⟩ := List.any_eq_true.mp hany
    refine ⟨if b.category = c then { b with spent_amount := b.spent_amount + a } else b,
      List.mem_map_of_mem _ hb, ?_⟩
    have hbc' : b.category = c := by simpa using hbc
    rw [if_pos hbc']
    exact hbc'
  · rw [if_neg hany]
    exact ⟨_, List.mem_append_right _ (List.mem_singleton_self _), rfl⟩

/-- Inversion of a successful `delete_expense`. -/
theorem delete_expense_ok {i : Nat} {db db' : DB} (h : delete_expense i db = .ok db') :
    ∃ e, db.expenses.find? (fun x => x.id = i) = some e ∧
      db' = { db with
                expenses := db.expenses.filter (fun x => x.id ≠ i)
                budgets := db.budgets.map (fun b =>
                  if b.category = e.category then
                    { b with spent_amount := max 0 (b.spent_amount - e.amount) }
                  else b) } := by
  unfold delete_expense at h
  split at h
  · simp at h
  · rename_i e heq
    simp only [Except.ok.injEq] at h
    exact ⟨e, heq, h.symm⟩

theorem StoreWF_init : StoreWF init_db :=
  ⟨by decide, by decide, by decide, by decide, by unfold SpentInvariant; decide⟩

theorem StoreWF_set {c : String} {l : ℚ} {db db' : DB}
    (h : set_budget c l db = .ok db') (hw : StoreWF db) : StoreWF db' := by
  unfold set_budget at h
  split at h
  · simp at h
  · split at h
    · simp at h
    · simp only [Except.ok.injEq] at h
      subst h
      constructor
      · exact hw.amounts_pos
      · exact hw.ids_lt
      · exact hw.ids_nodup
      · intro e he
        obtain ⟨b, hb, hbc⟩ := hw.budget_exists e he
        by_cases hany : db.budgets.any (fun x => x.category = c)
        · refine ⟨if b.category = c then { b with limit_amount := l } else b, ?_, ?_⟩
          · show _ ∈ (if db.budgets.any (fun x => x.category = c) then _ else _)
            rw [if_pos hany]
            exact List.mem_map_of_mem _ hb
          · split <;> exact hbc
        · refine ⟨b, ?_, hbc⟩
          show _ ∈ (if db.budgets.any (fun x => x.category = c) then _ else _)
          rw [if_neg hany]
          exact List.mem_append_left _ hb
      · intro b' hb'
        rw [show ({ db with budgets := _ } : DB).budgets = _ from rfl] at hb'
        by_cases hany : db.budgets.any (fun x => x.category = c)
        · rw [if_pos hany] at hb'
          obtain ⟨b, hb, rfl⟩ := List.mem_map.mp hb'
          split <;> exact hw.inv b hb
        · rw [if_neg hany] at hb'
          rcases List.mem_append.mp hb' with h1 | h1
          · exact hw.inv b' h1
          · obtain rfl := List.mem_singleton.mp h1
            show (0 : ℚ) = catSumL db.expenses c
            rw [catSumL_eq_zero]
            intro e he hec
            obtain ⟨b, hb, hbc⟩ := hw.budget_exists e he
            exact hany (List.any_eq_true.mpr ⟨b, hb, by simp [hbc, hec]⟩)

theorem StoreWF_add {amount : ℚ} {description : String} {category date : Option String}
    {now : String} {db : DB} {i : Nat} {db' : DB}
    (h : add_expense amount description category date now db = .ok (i, db'))
    (hw : StoreWF db) : StoreWF db' := by
  obtain ⟨hpos, -, -, hexp, hbud, hnext⟩ := add_expense_ok h
  have hcat : ∀ c0, catSum db' c0 =
      catSum db c0 + (if effectiveCategory category description = c0 then amount else 0) := by
    intro c0
    unfold catSum
    rw [hexp, catSumL_append]
  constructor
  · intro e he
    rw [hexp] at he
    rcases List.mem_append.mp he with h1 | h1
    · exact hw.amounts_pos e h1
    · obtain rfl := List.mem_singleton.mp h1
      exact hpos
  · intro e he
    rw [hexp] at he
    rw [hnext]
    rcases List.mem_append.mp he with h1 | h1
    · exact Nat.lt_succ_of_lt (hw.ids_lt e h1)
    · obtain rfl := List.mem_singleton.mp h1
      exact Nat.lt_succ_self _
  · rw [hexp, List.map_append]
    rw [List.nodup_append]
    refine ⟨hw.ids_nodup, by simp, ?_⟩
    intro a ha hb
    obtain ⟨e, he, rfl⟩ := List.mem_map.mp ha
    have hlt := hw.ids_lt e he
    simp at hb
    omega
  · intro e he
    rw [hexp] at he
    rw [hbud]
    rcases List.mem_append.mp he with h1 | h1
    · obtain ⟨b, hb, hbc⟩ := hw.budget_exists e h1
      obtain ⟨b', hb', hbc'⟩ := upsertSpend_preserves db.budgets _ amount b hb
      exact ⟨b', hb', hbc'.trans hbc⟩
    · obtain rfl := List.mem_singleton.mp h1
      obtain ⟨b', hb', hbc'⟩ :=
        upsertSpend_has db.budgets (effectiveCategory category description) amount
      exact ⟨b', hb', hbc'⟩
  · intro b' hb'
    rw [hbud] at hb'
    unfold upsertSpend at hb'
    by_cases hany : db.budgets.any (fun x => x.category = effectiveCategory category description)
    · rw [if_pos hany] at hb'
      obtain ⟨b, hb, rfl⟩ := List.mem_map.mp hb'
      by_cases hbc : b.category = effectiveCategory category description
      · rw [if_pos hbc]
        show b.spent_amount + amount = catSum db' b.category
        rw [hcat b.category, if_pos hbc.symm, hw.inv b hb]
      · rw [if_neg hbc]
        show b.spent_amount = catSum db' b.category
        rw [hcat b.category, if_neg (fun hh => hbc hh.symm), hw.inv b hb, add_zero]
    · rw [if_neg hany] at hb'
      rcases List.mem_append.mp hb' with h1 | h1
      · have hbc : b'.category ≠ effectiveCategory category description := by
          intro hh
          exact hany (List.any_eq_true.mpr ⟨b', h1, by simpa using hh⟩)
        show b'.spent_amount = catSum db' b'.category
        rw [hcat b'.category, if_neg (fun hh => hbc hh.symm), hw.inv b' h1, add_zero]
      · obtain rfl := List.mem_singleton.mp h1
        show amount = catSum db' (effectiveCategory category description)
        rw [hcat, if_pos rfl]
        have hzero : catSum db (effectiveCategory category description) = 0 := by
          apply catSumL_eq_zero
          intro e he hec
          obtain ⟨b, hb, hbc⟩ := hw.budget_exists e he
          exact hany (List.any_eq_true.mpr ⟨b, hb, by simp [hbc, hec]⟩)
        rw [hzero, zero_add]

theorem StoreWF_del {i : Nat} {db db' : DB} (h : delete_expense i db = .ok db')
    (hw : StoreWF db) : StoreWF db' := by
  obtain ⟨e, hfind, rfl⟩ := delete_expense_ok h
  have hdel := catSumL_delete i db.expenses hw.ids_nodup e hfind
  constructor
  · intro x hx
    exact hw.amounts_pos x (List.mem_filter.mp hx).1
  · intro x hx
    exact hw.ids_lt x (List.mem_filter.mp hx).1
  · exact hw.ids_nodup.sublist (List.Sublist.map _ (List.filter_sublist _))
  · intro x hx
    obtain ⟨b, hb, hbc⟩ := hw.budget_exists x (List.mem_filter.mp hx).1
    refine ⟨if b.category = e.category
              then { b with spent_amount := max 0 (b.spent_amount - e.amount) } else b,
            List.mem_map_of_mem _ hb, ?_⟩
    split <;> exact hbc
  · intro b' hb'
    obtain ⟨b, hb, rfl⟩ := List.mem_map.mp hb'
    by_cases hbc : b.category = e.category
    · rw [if_pos hbc]
      show max 0 (b.spent_amount - e.amount)
        = catSumL (db.expenses.filter (fun x => x.id ≠ i)) b.category
      have h2 : (0 : ℚ) ≤ catSumL (db.expenses.filter (fun x => x.id ≠ i)) b.category :=
        catSumL_nonneg (fun x hx => hw.amounts_pos x (List.mem_filter.mp hx).1)
      have h3 := hdel b.category
      rw [if_pos hbc.symm] at h3
      have h4 : b.spent_amount = catSumL db.expenses b.category := hw.inv b hb
      rw [h4, ← h3]
      exact max_eq_right h2
    · rw [if_neg hbc]
      show b.spent_amount = catSumL (db.expenses.filter (fun x => x.id ≠ i)) b.category
      rw [hdel b.category, if_neg (fun hh => hbc hh.symm), sub_zero]
      exact hw.inv b hb

theorem Reachable_wf {db : DB} (h : Reachable db) : StoreWF db := by
  induction h with
  | init => exact StoreWF_init
  | add _ h2 ih => exact StoreWF_add h2 ih
  | del _ h2 ih => exact StoreWF_del h2 ih
  | set _ h2 ih => exact StoreWF_set h2 ih

/-! ## Claim C5 — the spent-amount invariant -/

/-- C5: in every state reachable by the core operations alone
(initialisation, `recordExpense`, `deleteExpense`, `setBudget`), every
budget row's `spent_amount` equals the sum of the amounts of the
currently-undeleted expenses of its category (which, in reachable states,
are exactly the ones recorded since the budget's creation, because
`add_expense` creates a category's budget row on first use and no
operation deletes budget rows). -/
theorem C5_spent_invariant {db : DB} (h : Reachable db) : SpentInvariant db :=
  (Reachable_wf h).inv

/-- Witness for C5 at a concrete reachable state: the travel scenario
store after one `set_budget` and one `add_expense`. -/
theorem C5_spent_invariant_witness : SpentInvariant travelDB2 :=
  C5_spent_invariant
    (Reachable.add
      (Reachable.set Reachable.init
        (show set_budget "travel" 250 init_db = .ok travelDB1 by decide))
      (show add_expense 300 "flight to NYC" (some "travel") none nowStamp travelDB1 =
          .ok (1, travelDB2) by decide))

/-! ## Claim C6 — record/delete round trip -/

theorem exceptMap_ok {ε α β : Type} (f : α → β) (a : α) :
    (Except.ok a : Except ε α).map f = .ok (f a) := rfl

theorem find?_category_map (l : List Budget) (f : Budget → Budget)
    (hf : ∀ b, (f b).category = b.category) (c : String) :
    (l.map f).find? (fun b => b.category = c) =
      (l.find? (fun b => b.category = c)).map f := by
  rw [List.find?_map]
  have hpred : ((fun b : Budget => decide (b.category = c)) ∘ f)
      = (fun b : Budget => decide (b.category = c)) := by
    funext b
    simp [Function.comp, hf b]
  rw [hpred]

/-- The budget-table effect of inserting an expense of `amount` in `cat`
and deleting it again: for every category that had a budget row, the first
row's `spent_amount` is restored exactly (given the schema constraint that
spent amounts are non-negative). -/
theorem roundTrip_budgets (budgets : List Budget) (cat : String) (amount : ℚ)
    (hspent : ∀ b ∈ budgets, 0 ≤ b.spent_amount)
    {cat0 : String} {b0 : Budget}
    (hb : budgets.find? (fun b => b.category = cat0) = some b0) :
    (((upsertSpend budgets cat amount).map (fun b =>
        if b.category = cat then { b with spent_amount := max 0 (b.spent_amount - amount) }
        else b)).find? (fun b => b.category = cat0)).map Budget.spent_amount
      = some b0.spent_amount := by
  have hg : ∀ b : Budget, (if b.category = cat
      then { b with spent_amount := max 0 (b.spent_amount - amount) } else b).category
      = b.category := fun b => by split <;> rfl
  have hf : ∀ b : Budget, (if b.category = cat
      then { b with spent_amount := b.spent_amount + amount } else b).category
      = b.category := fun b => by split <;> rfl
  rw [find?_category_map _ _ hg]
  unfold upsertSpend
  by_cases hany : budgets.any (fun x => x.category = cat)
  · rw [if_pos hany, find?_category_map _ _ hf, hb]
    simp only [Option.map_some']
    congr 1
    by_cases hc : b0.category = cat
    · rw [if_pos hc]
      rw [if_pos
        (show ({ b0 with spent_amount := b0.spent_amount + amount } : Budget).category = cat
          from hc)]
      show max 0 (b0.spent_amount + amount - amount) = b0.spent_amount
      have h5 : b0.spent_amount + amount - amount = b0.spent_amount := by ring
      rw [h5]
      exact max_eq_right (hspent b0 (List.mem_of_find?_eq_some hb))
    · rw [if_neg hc]
      rw [if_neg hc]
  · have hc : b0.category ≠ cat := by
      intro hh
      exact hany (List.any_eq_true.mpr
        ⟨b0, List.mem_of_find?_eq_some hb, by simpa using hh⟩)
    rw [if_neg hany, List.find?_append, hb, Option.or_some]
    simp only [Option.map_some']
    congr 1
    rw [if_neg hc]

/-- C6: from any schema-conforming state (unique ids below the
AUTOINCREMENT counter, non-negative spent amounts), a successful
`recordExpense` followed immediately by `deleteExpense` on the returned
id succeeds and restores the first budget row of every category that
already had one to its exact pre-insert `spent_amount` (the decrement
being floored at 0). -/
theorem C6_round_trip {db : DB} {amount : ℚ} {description : String}
    {category date : Option String} {now : String} {i : Nat} {db1 : DB}
    (hids : ∀ e ∈ db.expenses, e.id < db.nextExpenseId)
    (hspent : ∀ b ∈ db.budgets, 0 ≤ b.spent_amount)
    (hok : add_expense amount description category date now db = .ok (i, db1))
    {cat0 : String} {b0 : Budget} (hb : budgetOf db cat0 = some b0) :
    (delete_expense i db1).map (fun db2 => spentOf db2 cat0) = .ok (some b0.spent_amount) := by
  obtain ⟨hpos, hdesc, hi, hexp, hbud, hnext⟩ := add_expense_ok hok
  subst hi
  have hfind : db1.expenses.find? (fun x => x.id = db.nextExpenseId) =
      some { id := db.nextExpenseId, amount := amount, description := description,
             category := effectiveCategory category description,
             date := normalizeDate date now } := by
    rw [hexp, List.find?_append]
    have h1 : db.expenses.find? (fun x => x.id = db.nextExpenseId) = none := by
      rw [List.find?_eq_none]
      intro e he
      have := hids e he
      simp only [decide_eq_true_eq]
      omega
    rw [h1]
    simp
  have hdel : delete_expense db.nextExpenseId db1 = .ok
      { db1 with
          expenses := db1.expenses.filter (fun x => x.id ≠ db.nextExpenseId)
          budgets := db1.budgets.map (fun b =>
            if b.category = effectiveCategory category description then
              { b with spent_amount := max 0 (b.spent_amount - amount) }
            else b) } := by
    unfold delete_expense
    rw [hfind]
  rw [hdel, exceptMap_ok]
  congr 1
  show (((db1.budgets.map (fun b =>
      if b.category = effectiveCategory category description then
        { b with spent_amount := max 0 (b.spent_amount - amount) }
      else b))).find? (fun b => b.category = cat0)).map Budget.spent_amount
    = some b0.spent_amount
  rw [hbud]
  exact roundTrip_budgets db.budgets (effectiveCategory category description) amount hspent hb

/-- Witness for C6: in the travel scenario, deleting the expense just
recorded restores the travel budget's `spent_amount` to its pre-insert
value 0. -/
theorem C6_round_trip_witness :
    (delete_expense 1 travelDB2).map (fun db2 => spentOf db2 "travel") = .ok (some 0) :=
  C6_round_trip
    (show ∀ e ∈ travelDB1.expenses, e.id < travelDB1.nextExpenseId by decide)
    (show ∀ b ∈ travelDB1.budgets, 0 ≤ b.spent_amount by decide)
    (show add_expense 300 "flight to NYC" (some "travel") none nowStamp travelDB1 =
        .ok (1, travelDB2) by decide)
    (show budgetOf travelDB1 "travel" =
        some { category := "travel", limit_amount := 250, spent_amount := 0,
               period := "monthly" } by decide)

/-! ## Claim C7 — transactional rollback -/

theorem add_tx_cases (fault : Option AddStep) (amount : ℚ) (description : String)
    (category date : Option String) (now : String) (db : DB) :
    (add_expense_tx fault amount description category date now db).2 = db ∨
    ∃ n, (add_expense_tx fault amount description category date now db).1 = .ok n := by
  unfold add_expense_tx
  dsimp only
  by_cases h1 : amount ≤ 0
  · rw [if_pos h1]; exact Or.inl rfl
  rw [if_neg h1]
  by_cases h2 : description = ""
  · rw [if_pos h2]; exact Or.inl rfl
  rw [if_neg h2]
  by_cases h3 : fault = some AddStep.insertExpense
  · rw [if_pos h3]; exact Or.inl rfl
  rw [if_neg h3]
  by_cases h4 : fault = some AddStep.upsertBudget
  · rw [if_pos h4]; exact Or.inl rfl
  rw [if_neg h4]
  by_cases h5 : fault = some AddStep.readBudget
  · rw [if_pos h5]; exact Or.inl rfl
  rw [if_neg h5]
  cases hfind : List.find? (fun b => b.category = effectiveCategory category description)
      (upsertSpend db.budgets (effectiveCategory category description) amount) with
  | none =>
      dsimp only
      by_cases h6 : fault = some AddStep.commit
      · rw [if_pos h6]; exact Or.inl rfl
      · rw [if_neg h6]; exact Or.inr ⟨_, rfl⟩
  | some b =>
      dsimp only
      by_cases h7 : b.limit_amount < b.spent_amount
      · rw [if_pos h7]
        by_cases h8 : b.limit_amount = 0
        · rw [if_pos h8]; exact Or.inl rfl
        rw [if_neg h8]
        by_cases h9 : fault = some AddStep.insertNotif
        · rw [if_pos h9]; exact Or.inl rfl
        rw [if_neg h9]
        by_cases h6 : fault = some AddStep.commit
        · rw [if_pos h6]; exact Or.inl rfl
        · rw [if_neg h6]; exact Or.inr ⟨_, rfl⟩
      · rw [if_neg h7]
        by_cases h6 : fault = some AddStep.commit
        · rw [if_pos h6]; exact Or.inl rfl
        · rw [if_neg h6]; exact Or.inr ⟨_, rfl⟩

theorem del_tx_cases (fault : Option DelStep) (i : Nat) (db : DB) :
    (delete_expense_tx fault i db).2 = db ∨
    ∃ n, (delete_expense_tx fault i db).1 = .ok n := by
  unfold delete_expense_tx
  dsimp only
  by_cases h1 : fault = some DelStep.selectExpense
  · rw [if_pos h1]; exact Or.inl rfl
  rw [if_neg h1]
  cases hfind : db.expenses.find? (fun e => e.id = i) with
  | none => exact Or.inl rfl
  | some e =>
      dsimp only
      by_cases h2 : fault = some DelStep.deleteRow
      · rw [if_pos h2]; exact Or.inl rfl
      rw [if_neg h2]
      by_cases h3 : fault = some DelStep.updateBudget
      · rw [if_pos h3]; exact Or.inl rfl
      rw [if_neg h3]
      by_cases h4 : fault = some DelStep.commit
      · rw [if_pos h4]; exact Or.inl rfl
      · rw [if_neg h4]; exact Or.inr ⟨_, rfl⟩

/-- C7: whenever `recordExpense` or `deleteExpense` fails — validation
failure, missing expense id, division by a zero limit, or an injected
store-level failure at any SQL step of the transaction — the operation
returns a typed error and the committed store is exactly the one before
the call: no partial effect of the multi-step transaction is observable. -/
theorem C7_rollback (db : DB) :
    (∀ (fault : Option AddStep) (amount : ℚ) (description : String)
       (category date : Option String) (now : String) (e : DBErr),
       (add_expense_tx fault amount description category date now db).1 = .error e →
       (add_expense_tx fault amount description category date now db).2 = db) ∧
    (∀ (fault : Option DelStep) (i : Nat) (e : DBErr),
       (delete_expense_tx fault i db).1 = .error e →
       (delete_expense_tx fault i db).2 = db) := by
  constructor
  · intro fault amount description category date now e h
    rcases add_tx_cases fault amount description category date now db with hk | ⟨n, hn⟩
    · exact hk
    · rw [hn] at h
      simp at h
  · intro fault i e h
    rcases del_tx_cases fault i db with hk | ⟨n, hn⟩
    · exact hk
    · rw [hn] at h
      simp at h

/-- Witness for C7: a store fault at the budget-upsert step of
`add_expense` and one at the row-delete step of `delete_expense` both
leave their concrete stores untouched. -/
theorem C7_rollback_witness :
    (add_expense_tx (some .upsertBudget) 5 "flight" none none nowStamp travelDB1).2 =
      travelDB1 ∧
    (delete_expense_tx (some .deleteRow) 1 travelDB2).2 = travelDB2 :=
  ⟨(C7_rollback travelDB1).1 (some .upsertBudget) 5 "flight" none none nowStamp .storeError
      (by decide),
   (C7_rollback travelDB2).2 (some .deleteRow) 1 .storeError (by decide)⟩

/-! ## Claim C8 — budget overview -/

/-- C8, counterexample: with spent 1 of limit 3 the overview's reported
percentage is the display-rounded 33.3, which is not the claimed exact
spent/limit*100 = 100/3 (the code reports `round(percentage, 1)`,
line 736). -/
theorem C8_overview_counterexample :
    ((get_budget_overview thirdDB).categories.map OverviewEntry.percentage) = [333/10] ∧
    (333 / 10 : ℚ) ≠ 1 / 3 * 100 := by decide

/-- C8, amended: `budgetOverview` returns exactly one row per budget row
— the returned list is a permutation of the per-budget renderings, so
every budget row is reported — and for every budget row the rendering
carries the display-rounded values: percentage = round(spent/limit*100, 1)
(0 when limit is 0), remaining = round(limit - spent, 2), limit and spent
rounded to 2 decimals, and status from the unrounded percentage:
`"exceeded"` when it is at least 100, `"warning"` when at least 80,
`"normal"` otherwise; the rows are sorted in descending order of
percentage; and the aggregate summary holds the rounded sum of limits,
sum of spent amounts and the overall percentage. -/
theorem C8_budget_overview_amended (db : DB) :
    (get_budget_overview db).categories.Perm (db.budgets.map overviewEntry) ∧
    (∀ b ∈ db.budgets,
       overviewEntry b ∈ (get_budget_overview db).categories ∧
       (overviewEntry b).category = b.category ∧
       (overviewEntry b).limit = pyRoundTo 2 b.limit_amount ∧
       (overviewEntry b).spent = pyRoundTo 2 b.spent_amount ∧
       (overviewEntry b).remaining = pyRoundTo 2 (b.limit_amount - b.spent_amount) ∧
       (overviewEntry b).percentage = pyRoundTo 1 (pctOf b) ∧
       (overviewEntry b).status = (if 100 ≤ pctOf b then "exceeded"
                                   else if 80 ≤ pctOf b then "warning" else "normal")) ∧
    (((get_budget_overview db).categories.map OverviewEntry.percentage).Pairwise (· ≥ ·)) ∧
    (get_budget_overview db).summary.total_limit =
      pyRoundTo 2 (db.budgets.map Budget.limit_amount).sum ∧
    (get_budget_overview db).summary.total_spent =
      pyRoundTo 2 (db.budgets.map Budget.spent_amount).sum ∧
    (get_budget_overview db).summary.overall_percentage =
      pyRoundTo 1 (if 0 < (db.budgets.map Budget.limit_amount).sum
                   then (db.budgets.map Budget.spent_amount).sum /
                        (db.budgets.map Budget.limit_amount).sum * 100
                   else 0) := by
  letI : IsTotal Budget (fun a b => pctOf b ≤ pctOf a) :=
    ⟨fun a b => le_total (pctOf b) (pctOf a)⟩
  letI : IsTrans Budget (fun a b => pctOf b ≤ pctOf a) :=
    ⟨fun _ _ _ hab hbc => le_trans hbc hab⟩
  have hperm : (get_budget_overview db).categories.Perm (db.budgets.map overviewEntry) :=
    (List.perm_insertionSort (fun a b : Budget => pctOf b ≤ pctOf a) db.budgets).map
      overviewEntry
  refine ⟨hperm, ?_, ?_, rfl, rfl, rfl⟩
  · intro b hb
    exact ⟨hperm.mem_iff.mpr (List.mem_map_of_mem overviewEntry hb),
           rfl, rfl, rfl, rfl, rfl, rfl⟩
  · have hsorted :=
      List.sorted_insertionSort (fun a b : Budget => pctOf b ≤ pctOf a) db.budgets
    show (((db.budgets.insertionSort (fun a b => pctOf b ≤ pctOf a)).map
        overviewEntry).map OverviewEntry.percentage).Pairwise (· ≥ ·)
    rw [List.map_map]
    exact hsorted.map _ (fun a b h => pyRoundTo_mono 1 h)

/-- Witness for the amended C8 at the concrete travel-scenario store. -/
theorem C8_budget_overview_amended_witness :
    (get_budget_overview travelDB2).categories.Perm (travelDB2.budgets.map overviewEntry) ∧
    (∀ b ∈ travelDB2.budgets,
       overviewEntry b ∈ (get_budget_overview travelDB2).categories ∧
       (overviewEntry b).category = b.category ∧
       (overviewEntry b).limit = pyRoundTo 2 b.limit_amount ∧
       (overviewEntry b).spent = pyRoundTo 2 b.spent_amount ∧
       (overviewEntry b).remaining = pyRoundTo 2 (b.limit_amount - b.spent_amount) ∧
       (overviewEntry b).percentage = pyRoundTo 1 (pctOf b) ∧
       (overviewEntry b).status = (if 100 ≤ pctOf b then "exceeded"
                                   else if 80 ≤ pctOf b then "warning" else "normal")) ∧
    (((get_budget_overview travelDB2).categories.map OverviewEntry.percentage).Pairwise
      (· ≥ ·)) ∧
    (get_budget_overview travelDB2).summary.total_limit =
      pyRoundTo 2 (travelDB2.budgets.map Budget.limit_amount).sum ∧
    (get_budget_overview travelDB2).summary.total_spent =
      pyRoundTo 2 (travelDB2.budgets.map Budget.spent_amount).sum ∧
    (get_budget_overview travelDB2).summary.overall_percentage =
      pyRoundTo 1 (if 0 < (travelDB2.budgets.map Budget.limit_amount).sum
                   then (travelDB2.budgets.map Budget.spent_amount).sum /
                        (travelDB2.budgets.map Budget.limit_amount).sum * 100
                   else 0) :=
  C8_budget_overview_amended travelDB2

/-! ## Claim C9 — pagination -/

/-- C9: with a positive `limit`, `listExpenses` succeeds and returns at
most `limit` rows in reverse-chronological (weakly descending date) order,
the total count of all matching rows, and a page count that is exactly
the ceiling of total/limit (characterized by
`total ≤ pages*limit < total + limit`). -/
theorem C9_pagination (limit offset : Nat) (category date_from date_to : Option String)
    (db : DB) (hl : 0 < limit) (page : ExpensesPage)
    (hp : get_all_expenses limit offset category date_from date_to db = .ok page) :
    page.expenses.length ≤ limit ∧
    ((page.expenses.map Expense.date).Pairwise (fun d1 d2 => dateLe d2 d1 = true)) ∧
    page.pagination.total =
      (db.expenses.filter (expenseMatches category date_from date_to)).length ∧
    page.pagination.pages = (page.pagination.total + limit - 1) / limit ∧
    page.pagination.total ≤ page.pagination.pages * limit ∧
    page.pagination.pages * limit < page.pagination.total + limit := by
  letI : IsTotal Expense (fun a b => dateLe b.date a.date = true) :=
    ⟨fun a b => charsLe_total b.date.toList a.date.toList⟩
  letI : IsTrans Expense (fun a b => dateLe b.date a.date = true) :=
    ⟨fun _ _ _ hab hbc => charsLe_trans _ _ _ hbc hab⟩
  unfold get_all_expenses at hp
  rw [if_neg (by omega)] at hp
  simp only [Except.ok.injEq] at hp
  subst hp
  dsimp only
  refine ⟨List.length_take_le _ _, ?_, rfl, rfl, ?_, ?_⟩
  · have hsorted :=
      List.sorted_insertionSort (fun a b : Expense => dateLe b.date a.date = true)
        (db.expenses.filter (expenseMatches category date_from date_to))
    have hsub : List.Sublist
        ((((db.expenses.filter (expenseMatches category date_from date_to)).insertionSort
            (fun a b => dateLe b.date a.date = true)).drop offset).take limit)
        ((db.expenses.filter (expenseMatches category date_from date_to)).insertionSort
            (fun a b => dateLe b.date a.date = true)) :=
      (List.take_sublist _ _).trans (List.drop_sublist _ _)
    exact (hsorted.sublist hsub).map _ (fun a b h => h)
  · have hdm := Nat.div_add_mod
      ((db.expenses.filter (expenseMatches category date_from date_to)).length + limit - 1) limit
    have hr : ((db.expenses.filter (expenseMatches category date_from date_to)).length
        + limit - 1) % limit < limit := Nat.mod_lt _ hl
    rw [Nat.mul_comm]
    omega
  · have hdm := Nat.div_add_mod
      ((db.expenses.filter (expenseMatches category date_from date_to)).length + limit - 1) limit
    have hr : ((db.expenses.filter (expenseMatches category date_from date_to)).length
        + limit - 1) % limit < limit := Nat.mod_lt _ hl
    rw [Nat.mul_comm]
    omega


/-- Witness for C9: with 25 stored expenses and limit 10, the first page
has exactly 10 rows and `pagination.pages = 3`. -/
theorem C9_pagination_witness :
    get_all_expenses 10 0 none none none db25 = .ok page25 ∧
    (page25.expenses.length ≤ 10 ∧
     ((page25.expenses.map Expense.date).Pairwise (fun d1 d2 => dateLe d2 d1 = true)) ∧
     page25.pagination.total = (db25.expenses.filter (expenseMatches none none none)).length ∧
     page25.pagination.pages = (page25.pagination.total + 10 - 1) / 10 ∧
     page25.pagination.total ≤ page25.pagination.pages * 10 ∧
     page25.pagination.pages * 10 < page25.pagination.total + 10) ∧
    page25.expenses.length = 10 ∧ page25.pagination.pages = 3 :=
  ⟨by decide, C9_pagination 10 0 none none none db25 (by decide) page25 (by decide),
   by decide, by decide⟩
